import Mathlib

/-!
Verification of the pty/conpty backend of mprocs (OCaml era), files
src/pty/pty.c (POSIX backend) and src/pty/conpty.c (Windows backend).

The C stubs are shallowly embedded: each C function becomes a Lean
function over an explicit environment describing the outcomes of the OS
calls it makes (pipe creation succeeding or failing, the pid returned by
forkpty, ...) and an explicit record of the resource state it leaves
behind.  Machine fields keep their C widths where it matters:
`unsigned short` winsize fields are stored modulo 2^16, Windows COORD
fields are signed 16-bit, `cc_t` control characters are stored modulo
2^8.
-/

namespace Mprocs

/-! ## Window sizes (struct winsize, POSIX) -/

/-- struct winsize: rows, columns and the (unused) pixel sizes.  All four
fields are `unsigned short` in C; assignments below truncate modulo 2^16. -/
structure Winsize where
  ws_row : Nat
  ws_col : Nat
  ws_xpixel : Nat
  ws_ypixel : Nat
  deriving DecidableEq

/-- Kernel-side state of one pty: the window size the kernel holds for it. -/
structure PtyKernel where
  winsize : Winsize
  deriving DecidableEq

/-- Model of ioctl(fd, TIOCSWINSZ, &sz): on success the kernel stores the
given winsize for the pty and the call returns 0; on failure the state is
unchanged and the call returns -1.  `ok` is the outcome of the OS call. -/
def tiocswinsz (k : PtyKernel) (ok : Bool) (sz : Winsize) : PtyKernel × Int :=
  if ok then ({ winsize := sz }, 0) else (k, -1)

/-- Model of ioctl(fd, TIOCGWINSZ, &sz): the window-size query returns the
winsize the kernel holds for the pty. -/
def tiocgwinsz (k : PtyKernel) : Winsize :=
  k.winsize

/-- ocaml_pty_ioctl_set_size (pty.c lines 52-74): reads rows from vHeight
and cols from vWidth, fills a winsize with ws_col = cols, ws_row = rows and
zero pixel fields, performs the TIOCSWINSZ ioctl and returns its result. -/
def ocaml_pty_ioctl_set_size (k : PtyKernel) (ok : Bool) (width height : Nat) :
    PtyKernel × Int :=
  let rows := height
  let cols := width
  let sz : Winsize :=
    { ws_col := cols % 65536, ws_row := rows % 65536
      ws_xpixel := 0, ws_ypixel := 0 }
  tiocswinsz k ok sz

/-! ## Windows COORD and pseudoconsole resize -/

/-- Narrowing of a non-negative integer value to a Windows SHORT (signed
16-bit), as the assignment of Int_val to a COORD field performs. -/
def toInt16 (n : Nat) : Int :=
  (((n + 32768) % 65536 : Nat) : Int) - 32768

/-- Windows COORD: X and Y are SHORT (signed 16-bit). -/
structure Coord where
  X : Int
  Y : Int
  deriving DecidableEq

/-- State of a Windows pseudoconsole object: the size it currently has. -/
structure Hpcon where
  size : Coord
  deriving DecidableEq

/-- Model of ResizePseudoConsole(hpc, newSize): the pseudoconsole takes the
given size. -/
def ResizePseudoConsole (hpc : Hpcon) (newSize : Coord) : Hpcon :=
  { size := newSize }

/-- conpty_resize (conpty.c lines 254-264): builds a COORD with
X = Int_val(vCols) and Y = Int_val(vRows) and passes it to
ResizePseudoConsole on the record's pseudoconsole. -/
def conpty_resize (hpc : Hpcon) (rows cols : Nat) : Hpcon :=
  let size : Coord := { X := toInt16 cols, Y := toInt16 rows }
  ResizePseudoConsole hpc size

/-! ## Terminal attributes (struct termios, pty.c lines 91-127)

Flag constants are the glibc (Linux) values the file compiles against. -/

def BRKINT : Nat := 0x002
def ICRNL : Nat := 0x100
def IXON : Nat := 0x400
def IXANY : Nat := 0x800
def IMAXBEL : Nat := 0x2000
def IUTF8 : Nat := 0x4000

def OPOST : Nat := 0x1
def ONLCR : Nat := 0x4

def CS8 : Nat := 0x30
def CREAD : Nat := 0x80
def HUPCL : Nat := 0x400

def ISIG : Nat := 0x001
def ICANON : Nat := 0x002
def ECHO : Nat := 0x008
def ECHOE : Nat := 0x010
def ECHOK : Nat := 0x020
def ECHOCTL : Nat := 0x200
def ECHOKE : Nat := 0x800
def IEXTEN : Nat := 0x8000

/-- B38400, the baud-rate constant the source sets on input and output. -/
def B38400 : Nat := 0xF

/-- A value stored into a `cc_t` (unsigned char) control-character slot;
negative values wrap, so (cc_t)(-1) is 255. -/
def ccOfInt (i : Int) : Nat :=
  (i % 256).toNat

/-- The value that disables a control character: the source writes
(cc_t)(-1), i.e. 0xff, into the slot. -/
def ccDisabled : Nat := 255

/-- struct termios restricted to the fields the source assigns: the four
flag words, the control characters written by ocaml_pty_fork, and the
input/output speeds set with cfsetispeed/cfsetospeed. -/
structure Termios where
  c_iflag : Nat
  c_oflag : Nat
  c_cflag : Nat
  c_lflag : Nat
  veof : Nat
  veol : Nat
  veol2 : Nat
  verase : Nat
  vwerase : Nat
  vkill : Nat
  vreprint : Nat
  vintr : Nat
  vquit : Nat
  vsusp : Nat
  vstart : Nat
  vstop : Nat
  vlnext : Nat
  vdiscard : Nat
  vmin : Nat
  vtime : Nat
  ispeed : Nat
  ospeed : Nat
  deriving DecidableEq

/-- The terminal attribute record ocaml_pty_fork builds (pty.c lines
91-127), field by field in source order.  IUTF8 is OR-ed in since the
platform defines it; the Apple-only VDSUSP/VSTATUS block is outside the
modelled (Linux/glibc) configuration. -/
def defaultTermios : Termios :=
  { c_iflag := ICRNL ||| IXON ||| IXANY ||| IMAXBEL ||| BRKINT ||| IUTF8
    c_oflag := OPOST ||| ONLCR
    c_cflag := CREAD ||| CS8 ||| HUPCL
    c_lflag := ICANON ||| ISIG ||| IEXTEN ||| ECHO ||| ECHOE ||| ECHOK |||
      ECHOKE ||| ECHOCTL
    veof := ccOfInt 4
    veol := ccOfInt (-1)
    veol2 := ccOfInt (-1)
    verase := ccOfInt 0x7f
    vwerase := ccOfInt 23
    vkill := ccOfInt 21
    vreprint := ccOfInt 18
    vintr := ccOfInt 3
    vquit := ccOfInt 0x1c
    vsusp := ccOfInt 26
    vstart := ccOfInt 17
    vstop := ccOfInt 19
    vlnext := ccOfInt 22
    vdiscard := ccOfInt 15
    vmin := ccOfInt 1
    vtime := ccOfInt 0
    ispeed := B38400
    ospeed := B38400 }

/-- The canonical profile as the specification words it (spec section 4.1
and claim C4): input flags ICRNL|IXON|IXANY|IMAXBEL|BRKINT plus IUTF8
where supported, output flags OPOST|ONLCR, control flags CREAD|CS8|HUPCL,
local flags ICANON|ISIG|IEXTEN|ECHO|ECHOE|ECHOK|ECHOKE|ECHOCTL, the listed
control-character byte values with both EOL markers disabled, MIN=1,
TIME=0, and baud rate B38400 on input and output. -/
def canonicalModeProfile : Termios :=
  { c_iflag := ICRNL ||| IXON ||| IXANY ||| IMAXBEL ||| BRKINT ||| IUTF8
    c_oflag := OPOST ||| ONLCR
    c_cflag := CREAD ||| CS8 ||| HUPCL
    c_lflag := ICANON ||| ISIG ||| IEXTEN ||| ECHO ||| ECHOE ||| ECHOK |||
      ECHOKE ||| ECHOCTL
    veof := 4
    veol := ccDisabled
    veol2 := ccDisabled
    verase := 0x7f
    vwerase := 23
    vkill := 21
    vreprint := 18
    vintr := 3
    vquit := 0x1c
    vsusp := 26
    vstart := 17
    vstop := 19
    vlnext := 22
    vdiscard := 15
    vmin := 1
    vtime := 0
    ispeed := B38400
    ospeed := B38400 }

/-! ## ocaml_pty_fork (pty.c lines 76-171) -/

/-- NSIG as the source's fallback defines it: highest signal number + 1. -/
def NSIG : Nat := 32

/-- Disposition of one signal in a process's handler table. -/
inductive SigDisposition where
  | dfl
  | ign
  | custom (id : Nat)
  deriving DecidableEq

/-- The mask sigfillset builds: every signal blocked. -/
def sigfillsetMask : Nat := 2 ^ NSIG - 1

/-- The loop in the child branch of ocaml_pty_fork (pty.c lines 149-151):
for (i = 0; i < n; i++) sigaction(i, SIG_DFL); applied to the inherited
handler table, one index at a time. -/
def sigactionResetLoop (h : Nat → SigDisposition) : Nat → (Nat → SigDisposition)
  | 0 => h
  | n + 1 => Function.update (sigactionResetLoop h n) n .dfl

/-- Environment of one run of ocaml_pty_fork: the caller's signal mask, the
inherited signal-handler table, and the outcome of the forkpty call (the
pid it returns: -1 failure, 0 child branch, otherwise the child's pid; and
the master fd it writes in the parent). -/
structure ForkEnv where
  initMask : Nat
  initHandlers : Nat → SigDisposition
  forkPid : Int
  forkMaster : Int

/-- How ocaml_pty_fork leaves its caller: caml_failwith("forkpty(3)
failed.") on fork failure, Val_none in the child branch, and
Some (master, pid) in the parent branch. -/
inductive ForkOutcome where
  | failwithForkpty
  | childReturn
  | parentReturn (master : Int) (pid : Int)
  deriving DecidableEq

/-- Observable effects of one run of ocaml_pty_fork: the winsize and
termios records passed to forkpty, the process signal mask while forkpty
runs and when the function is left, the child's handler table after the
child branch, whether this stub executed any program, and the returned
value. -/
structure ForkRun where
  winsizeArg : Winsize
  termiosArg : Termios
  maskDuringFork : Nat
  finalMask : Nat
  childHandlers : Nat → SigDisposition
  execCalled : Bool
  outcome : ForkOutcome

/-- ocaml_pty_fork (pty.c lines 76-171), step by step: rows is read from
vHeight and cols from vWidth; the winsize is filled with ws_col = rows and
ws_row = cols (sic, pty.c lines 85-86) and zero pixel fields; the termios
record is defaultTermios; pthread_sigmask saves the caller's mask and
blocks everything; forkpty runs; in the child branch every signal in
[0, NSIG) is reset to SIG_DFL; the saved mask is restored on every path
before the switch on the pid; the switch raises on -1, returns None in the
child and Some (master, pid) in the parent.  The stub contains no exec
call: exec happens in the OCaml caller's child branch after this returns. -/
def ocaml_pty_fork (width height : Nat) (env : ForkEnv) : ForkRun :=
  let rows := height
  let cols := width
  let winp : Winsize :=
    { ws_col := rows % 65536, ws_row := cols % 65536
      ws_xpixel := 0, ws_ypixel := 0 }
  let term := defaultTermios
  let oldmask := env.initMask
  let duringFork := sigfillsetMask
  let pid := env.forkPid
  let handlers :=
    if pid = 0 then sigactionResetLoop env.initHandlers NSIG
    else env.initHandlers
  let finalMask := oldmask
  let outcome : ForkOutcome :=
    if pid = -1 then .failwithForkpty
    else if pid = 0 then .childReturn
    else .parentReturn env.forkMaster pid
  { winsizeArg := winp
    termiosArg := term
    maskDuringFork := duringFork
    finalMask := finalMask
    childHandlers := handlers
    execCalled := false
    outcome := outcome }

/-! ## _conpty_create_process (conpty.c lines 97-162) -/

/-- The steps of the Windows spawn sequence that can fail. -/
inductive ConptyStep where
  | createPipeIn
  | createPipeOut
  | createPseudoConsole
  | attrListAlloc
  | attrListInit
  | attrListUpdate
  | createProcess
  deriving DecidableEq

/-- Environment of one run of _conpty_create_process: the outcome of each
OS call it makes, plus the pid CreateProcessW assigns on success. -/
structure ConptyEnv where
  pipeInOk : Bool
  pipeOutOk : Bool
  pseudoOk : Bool
  attrAllocOk : Bool
  attrInitOk : Bool
  attrUpdateOk : Bool
  createProcessOk : Bool
  childPid : Nat
  deriving DecidableEq

/-- Handle identities, so the result fields can be traced to the pipe ends
they came from.  CreatePipe(&readEnd, &writeEnd) yields the read end in
its first and the write end in its second argument. -/
def stdinConsHandle : Nat := 0
def stdinOurHandle : Nat := 1
def stdoutOurHandle : Nat := 2
def stdoutConsHandle : Nat := 3
def childProcessHandle : Nat := 4
def childThreadHandle : Nat := 5

/-- The two ends of an anonymous pipe. -/
structure PipeEnds where
  readEnd : Nat
  writeEnd : Nat
  deriving DecidableEq

/-- The child-input pipe: CreatePipe(&stdinCons, &stdinOur) (conpty.c line
113) puts its read end in stdinCons and its write end in stdinOur. -/
def inputPipe : PipeEnds :=
  { readEnd := stdinConsHandle, writeEnd := stdinOurHandle }

/-- The child-output pipe: CreatePipe(&stdoutOur, &stdoutCons) (conpty.c
line 117) puts its read end in stdoutOur and its write end in stdoutCons. -/
def outputPipe : PipeEnds :=
  { readEnd := stdoutOurHandle, writeEnd := stdoutConsHandle }

/-- Which OS resources of one spawn attempt are live when the function
returns. -/
structure ConptyRes where
  stdinConsOpen : Bool
  stdinOurOpen : Bool
  stdoutOurOpen : Bool
  stdoutConsOpen : Bool
  pseudoConsoleOpen : Bool
  attrListAllocated : Bool
  processRunning : Bool
  threadHandleOpen : Bool
  deriving DecidableEq

/-- No resource allocated yet. -/
def conptyResInit : ConptyRes :=
  { stdinConsOpen := false, stdinOurOpen := false
    stdoutOurOpen := false, stdoutConsOpen := false
    pseudoConsoleOpen := false, attrListAllocated := false
    processRunning := false, threadHandleOpen := false }

/-- The OCaml result block the stub fills with Store_field: RES_PID,
RES_HANDLE, RES_STDIN, RES_STDOUT, RES_HPC.  A field is none until the
corresponding Store_field ran; RES_HPC holds the pseudoconsole reference. -/
structure ConptyFields where
  resPid : Option Nat
  resHandle : Option Nat
  resStdin : Option Nat
  resStdout : Option Nat
  resHpc : Option Unit
  deriving DecidableEq

/-- All result fields still unset. -/
def noFields : ConptyFields :=
  { resPid := none, resHandle := none, resStdin := none
    resStdout := none, resHpc := none }

/-- Result of prepare_startup_info (conpty.c lines 56-88). -/
inductive PrepResult where
  | outOfMemory
  | initFailed
  | updateFailed
  | prepared
  deriving DecidableEq

/-- prepare_startup_info (conpty.c lines 56-88): malloc the attribute
list, initialize it, store the pseudoconsole attribute.  Returns the step
result together with whether the attribute-list buffer is still allocated
on return: the function frees it itself on its two post-malloc failure
paths, and hands it to the caller on success. -/
def prepare_startup_info (env : ConptyEnv) : PrepResult × Bool :=
  if !env.attrAllocOk then (.outOfMemory, false)
  else if !env.attrInitOk then (.initFailed, false)
  else if !env.attrUpdateOk then (.updateFailed, false)
  else (.prepared, true)

/-- Everything one run of _conpty_create_process leaves behind: the
HRESULT-like result (which failing step, if any), the live resources, and
the filled result fields. -/
structure ConptyRun where
  result : Except ConptyStep Unit
  res : ConptyRes
  fields : ConptyFields

/-- _conpty_create_process (conpty.c lines 97-162), in source order:
create the child-input pipe, create the child-output pipe, create the
pseudoconsole on the pty-side ends, store RES_STDIN/RES_STDOUT/RES_HPC,
prepare the attribute list, CreateProcessW, then close the thread handle
and the pty-side pipe ends and store RES_PID/RES_HANDLE.  Each failure
path returns the translated OS error immediately; the source closes no
previously created handle on any failure path. -/
def _conpty_create_process (env : ConptyEnv) : ConptyRun :=
  if !env.pipeInOk then
    { result := .error .createPipeIn, res := conptyResInit, fields := noFields }
  else
  let r1 := { conptyResInit with stdinConsOpen := true, stdinOurOpen := true }
  if !env.pipeOutOk then
    { result := .error .createPipeOut, res := r1, fields := noFields }
  else
  let r2 := { r1 with stdoutOurOpen := true, stdoutConsOpen := true }
  if !env.pseudoOk then
    { result := .error .createPseudoConsole, res := r2, fields := noFields }
  else
  let r3 := { r2 with pseudoConsoleOpen := true }
  let f1 := { noFields with
    resStdin := some stdinOurHandle
    resStdout := some stdoutOurHandle
    resHpc := some () }
  match prepare_startup_info env with
  | (.outOfMemory, alloc) =>
      { result := .error .attrListAlloc
        res := { r3 with attrListAllocated := alloc }, fields := f1 }
  | (.initFailed, alloc) =>
      { result := .error .attrListInit
        res := { r3 with attrListAllocated := alloc }, fields := f1 }
  | (.updateFailed, alloc) =>
      { result := .error .attrListUpdate
        res := { r3 with attrListAllocated := alloc }, fields := f1 }
  | (.prepared, alloc) =>
    let r4 := { r3 with attrListAllocated := alloc }
    if !env.createProcessOk then
      { result := .error .createProcess, res := r4, fields := f1 }
    else
      let r5 := { r4 with processRunning := true, threadHandleOpen := true }
      let r6 := { r5 with
        threadHandleOpen := false
        stdinConsOpen := false
        stdoutConsOpen := false }
      let f2 := { f1 with
        resPid := some env.childPid
        resHandle := some childProcessHandle }
      { result := .ok (), res := r6, fields := f2 }

/-! ## The exit waiter's result step, result_wait (conpty.c lines 217-229) -/

/-- The observable actions of result_wait, in order. -/
inductive WaitEvent where
  | getExitCode (ok : Bool)
  | closeHandle
  | freeJob
  | raiseUnixError (err : Nat)
  | returnExit (code : Nat)
  deriving DecidableEq

/-- True exactly on the closeHandle event. -/
def isCloseHandle : WaitEvent → Bool
  | .closeHandle => true
  | _ => false

/-- result_wait (conpty.c lines 217-229) as its event trace.  `getOk` is
the outcome of GetExitCodeProcess, `code` the exit code it yields on
success, `osError` the GetLastError value captured on failure before
CloseHandle runs.  On failure: capture the error, close the handle, free
the job, raise the mapped unix error; on success: close the handle, free
the job, return the code. -/
def result_wait (getOk : Bool) (code osError : Nat) : List WaitEvent :=
  if getOk then
    [.getExitCode true, .closeHandle, .freeJob, .returnExit code]
  else
    [.getExitCode false, .closeHandle, .freeJob, .raiseUnixError osError]

/-! ## conpty_kill (conpty.c lines 241-248) -/

/-- conpty_kill (conpty.c lines 241-248): reads RES_HPC from the record
and closes the pseudoconsole, unconditionally, returning 0.  Any state
check lives in the OCaml session layer above this stub. -/
def conpty_kill (r : ConptyRes) : ConptyRes × Int :=
  ({ r with pseudoConsoleOpen := false }, 0)

/-! ## The session state machine

Modelled from the spec: the OCaml wrapper that owns the per-session
`state` field and reports misuse as an "invalid session state" error is
code of this repository that is not under src/ (src/ holds only the C
stubs it calls).  The definitions below follow the spec's words: `state`
is one of Running, Exited(exit_code), Killed; transitions are one-way;
after the exit wait completes the process handle is closed and further
waits or kills are reported as the distinct invalid-session-state error
instead of touching a closed handle. -/

/-- Modelled from the spec: the session `state` field, one of Running,
Exited(exit_code), Killed. -/
inductive SessionState where
  | Running
  | Exited (code : Nat)
  | Killed
  deriving DecidableEq

/-- Modelled from the spec: a session as the state layer sees it — its
state, and whether its process handle and pseudoconsole are still open. -/
structure Session where
  state : SessionState
  processHandleOpen : Bool
  pseudoConsoleOpen : Bool
  deriving DecidableEq

/-- Modelled from the spec: the error taxonomy of the session layer — the
distinct invalid-session-state misuse error, or a surfaced OS error. -/
inductive SessionError where
  | invalidSessionState
  | osError (code : Nat)
  deriving DecidableEq

/-- Modelled from the spec: the session layer's wait operation.  Only a
Running session may be waited on; the waiter closes the process handle
and moves the session to Exited with the code the OS reports.  On any
other state it reports the invalid-session-state error without touching
any handle. -/
def session_wait (s : Session) (exitCode : Nat) :
    Except SessionError (Nat × Session) :=
  match s.state with
  | .Running =>
      .ok (exitCode,
        { s with state := .Exited exitCode, processHandleOpen := false })
  | _ => .error .invalidSessionState

/-- Modelled from the spec: the session layer's kill operation.  Only a
Running session may be killed; killing closes the pseudoconsole (via the
conpty_kill stub) and moves the session to Killed.  On any other state it
reports the invalid-session-state error without touching any handle. -/
def session_kill (s : Session) : Except SessionError Session :=
  match s.state with
  | .Running =>
      .ok { s with state := .Killed, pseudoConsoleOpen := false }
  | _ => .error .invalidSessionState

/-! ## Helper lemmas -/

/-- Every signal number below the loop bound is at default disposition
after the sigaction reset loop. -/
theorem sigactionResetLoop_eq_dfl (h : Nat → SigDisposition) :
    ∀ n i, i < n → sigactionResetLoop h n i = SigDisposition.dfl := by
  intro n
  induction n with
  | zero => intro i hi; omega
  | succ n ih =>
      intro i hi
      by_cases hin : i = n
      · subst hin
        simp [sigactionResetLoop]
      · have hlt : i < n := by omega
        have hrec := ih i hlt
        calc sigactionResetLoop h (n + 1) i
            = sigactionResetLoop h n i := Function.update_noteq hin _ _
          _ = SigDisposition.dfl := hrec

/-- Narrowing to SHORT is the identity on values that fit. -/
theorem toInt16_eq_of_le (n : Nat) (h : n ≤ 32767) : toInt16 n = (n : Int) := by
  unfold toInt16
  have h2 : n + 32768 < 65536 := by omega
  rw [Nat.mod_eq_of_lt h2]
  push_cast
  omega

/-! ## Sample inputs used by witnesses and counterexamples -/

def envC1 : ForkEnv :=
  { initMask := 0, initHandlers := fun _ => SigDisposition.dfl
    forkPid := 7, forkMaster := 3 }

def envChild : ForkEnv :=
  { initMask := 5, initHandlers := fun i => SigDisposition.custom i
    forkPid := 0, forkMaster := 0 }

def envParent : ForkEnv :=
  { initMask := 5, initHandlers := fun _ => SigDisposition.dfl
    forkPid := 12, forkMaster := 3 }

def envPipeOutFails : ConptyEnv :=
  { pipeInOk := true, pipeOutOk := false, pseudoOk := true
    attrAllocOk := true, attrInitOk := true, attrUpdateOk := true
    createProcessOk := true, childPid := 42 }

def envAllOk : ConptyEnv :=
  { pipeInOk := true, pipeOutOk := true, pseudoOk := true
    attrAllocOk := true, attrInitOk := true, attrUpdateOk := true
    createProcessOk := true, childPid := 7 }

def kernel0 : PtyKernel :=
  { winsize := { ws_row := 0, ws_col := 0, ws_xpixel := 0, ws_ypixel := 0 } }

def hpcon0 : Hpcon :=
  { size := { X := 0, Y := 0 } }

def session0 : Session :=
  { state := SessionState.Running
    processHandleOpen := true, pseudoConsoleOpen := true }

def session1 : Session :=
  { state := SessionState.Exited 7
    processHandleOpen := false, pseudoConsoleOpen := true }

/-! ## Claim theorems -/

/-- C1: refuted on the code.  Spawning with requested size rows = 24,
cols = 80 (ocaml_pty_fork is called with vWidth = 80, vHeight = 24), the
winsize handed to forkpty has ws_row = 80 and ws_col = 24: pty.c lines
85-86 store rows into ws_col and cols into ws_row, the transpose of what
the claim states (and of what ocaml_pty_ioctl_set_size does). -/
theorem c1_fork_passes_swapped_winsize :
    (ocaml_pty_fork 80 24 envC1).winsizeArg.ws_row = 80 ∧
    (ocaml_pty_fork 80 24 envC1).winsizeArg.ws_col = 24 ∧
    ¬ ((ocaml_pty_fork 80 24 envC1).winsizeArg.ws_row = 24 ∧
       (ocaml_pty_fork 80 24 envC1).winsizeArg.ws_col = 80) := by
  refine ⟨rfl, rfl, ?_⟩
  intro hcontra
  exact absurd hcontra.1 (by decide)

/-- C2: refuted on the code.  When the second CreatePipe call fails after
the first succeeded, _conpty_create_process returns the translated OS
error at once (conpty.c lines 117-119) with the first pipe's two handles
still open: no failure path of the function releases resources allocated
in prior steps.  No process is running on this path, as the claim says. -/
theorem c2_failed_spawn_leaks_first_pipe :
    (_conpty_create_process envPipeOutFails).result =
      Except.error ConptyStep.createPipeOut ∧
    (_conpty_create_process envPipeOutFails).res.stdinConsOpen = true ∧
    (_conpty_create_process envPipeOutFails).res.stdinOurOpen = true ∧
    (_conpty_create_process envPipeOutFails).res.processRunning = false :=
  ⟨rfl, rfl, rfl, rfl⟩

/-- C3: on both paths of result_wait — exit code retrieved and retrieval
failed — the process handle is closed exactly once; on success the trace
ends by returning the code, on failure it ends by raising the OS error
captured from GetExitCodeProcess, so the handle never leaks. -/
theorem c3_result_wait_closes_handle_once_on_every_path (code osError : Nat) :
    List.countP isCloseHandle (result_wait true code osError) = 1 ∧
    List.getLast? (result_wait true code osError) =
      some (WaitEvent.returnExit code) ∧
    List.countP isCloseHandle (result_wait false code osError) = 1 ∧
    List.getLast? (result_wait false code osError) =
      some (WaitEvent.raiseUnixError osError) := by
  refine ⟨rfl, rfl, rfl, rfl⟩

/-- C4: the terminal attribute record built by the POSIX spawn equals, bit
for bit, the canonical profile of the specification, and its baud rate is
a valid non-zero rate set on both input and output. -/
theorem c4_default_termios_is_canonical :
    defaultTermios = canonicalModeProfile ∧
    defaultTermios.ispeed ≠ 0 ∧ defaultTermios.ospeed ≠ 0 := by
  decide

/-- C5: the process signal mask is widened to block every signal while
forkpty runs, and on every exit path of ocaml_pty_fork — fork failure,
child return, parent return — the mask the caller observes afterwards is
the mask saved before the fork. -/
theorem c5_sigmask_saved_and_restored_on_every_path
    (width height : Nat) (env : ForkEnv) :
    (ocaml_pty_fork width height env).maskDuringFork = sigfillsetMask ∧
    (ocaml_pty_fork width height env).finalMask = env.initMask ∧
    ((ocaml_pty_fork width height env).outcome = ForkOutcome.failwithForkpty ∨
     (ocaml_pty_fork width height env).outcome = ForkOutcome.childReturn ∨
     (ocaml_pty_fork width height env).outcome =
       ForkOutcome.parentReturn env.forkMaster env.forkPid) := by
  refine ⟨rfl, rfl, ?_⟩
  unfold ocaml_pty_fork
  by_cases h1 : env.forkPid = -1
  · simp [h1]
  · by_cases h0 : env.forkPid = 0 <;> simp [h1, h0]

/-- C6: for rows, cols between 1 and the SHORT range, the POSIX resize
stores rows into ws_row and cols into ws_col with zero pixel fields and
returns the ioctl result, a later window-size query on the same pty
returns exactly (rows, cols), and the Windows resize passes a COORD with
Y = rows and X = cols to ResizePseudoConsole. -/
theorem c6_resize_roundtrip (k : PtyKernel) (hpc : Hpcon) (rows cols : Nat)
    (hr1 : 1 ≤ rows) (hr2 : rows ≤ 32767)
    (hc1 : 1 ≤ cols) (hc2 : cols ≤ 32767) :
    tiocgwinsz (ocaml_pty_ioctl_set_size k true cols rows).1 =
      { ws_row := rows, ws_col := cols, ws_xpixel := 0, ws_ypixel := 0 } ∧
    (ocaml_pty_ioctl_set_size k true cols rows).2 = 0 ∧
    (conpty_resize hpc rows cols).size.Y = rows ∧
    (conpty_resize hpc rows cols).size.X = cols := by
  have hrow : rows % 65536 = rows := Nat.mod_eq_of_lt (by omega)
  have hcol : cols % 65536 = cols := Nat.mod_eq_of_lt (by omega)
  refine ⟨?_, rfl, ?_, ?_⟩
  · unfold ocaml_pty_ioctl_set_size tiocswinsz tiocgwinsz
    simp [hrow, hcol]
  · unfold conpty_resize ResizePseudoConsole
    exact toInt16_eq_of_le rows hr2
  · unfold conpty_resize ResizePseudoConsole
    exact toInt16_eq_of_le cols hc2

/-- C6 counterexample: the claim's universal form (all rows, cols ≥ 1)
fails above the SHORT range: at rows = 40000, cols = 80 the Windows
resize hands ResizePseudoConsole Y = -25536, not 40000, because the
COORD fields are signed 16-bit (conpty.c lines 259-260 assign Int_val
to a SHORT). -/
theorem c6_resize_large_rows_truncated :
    (conpty_resize hpcon0 40000 80).size.Y = -25536 ∧
    ¬ (conpty_resize hpcon0 40000 80).size.Y = 40000 := by
  decide

/-- C6 witness: resizing to (24, 80) on a concrete pty and pseudoconsole. -/
theorem c6_resize_roundtrip_witness :
    tiocgwinsz (ocaml_pty_ioctl_set_size kernel0 true 80 24).1 =
      { ws_row := 24, ws_col := 80, ws_xpixel := 0, ws_ypixel := 0 } ∧
    (ocaml_pty_ioctl_set_size kernel0 true 80 24).2 = 0 ∧
    (conpty_resize hpcon0 24 80).size.Y = 24 ∧
    (conpty_resize hpcon0 24 80).size.X = 80 :=
  c6_resize_roundtrip kernel0 hpcon0 24 80
    (by decide) (by decide) (by decide) (by decide)

/-- C7: ocaml_pty_fork raises the fatal spawn error (caml_failwith) if and
only if forkpty returned -1; in every other outcome it returns a value,
and the failure outcome carries no session. -/
theorem c7_spawn_raises_iff_forkpty_fails
    (width height : Nat) (env : ForkEnv) :
    (ocaml_pty_fork width height env).outcome = ForkOutcome.failwithForkpty ↔
      env.forkPid = -1 := by
  unfold ocaml_pty_fork
  by_cases h1 : env.forkPid = -1
  · simp [h1]
  · by_cases h0 : env.forkPid = 0 <;> simp [h1, h0]

/-- C8: once the exit wait has completed on a session, a further wait and
a further kill on that session both report the distinct
invalid-session-state error, and the process handle is already closed. -/
theorem c8_wait_completed_then_wait_or_kill_errors
    (s : Session) (c c2 : Nat) (s2 : Session)
    (hw : session_wait s c = Except.ok (c, s2)) :
    session_wait s2 c2 = Except.error SessionError.invalidSessionState ∧
    session_kill s2 = Except.error SessionError.invalidSessionState ∧
    s2.processHandleOpen = false := by
  cases hs : s.state with
  | Running =>
      simp [session_wait, hs] at hw
      subst hw
      exact ⟨rfl, rfl, rfl⟩
  | Exited code => simp [session_wait, hs] at hw
  | Killed => simp [session_wait, hs] at hw

/-- C8 witness: a concrete Running session whose wait completes with exit
code 7; the follow-up wait and kill on the resulting session error out. -/
theorem c8_wait_completed_then_wait_or_kill_errors_witness :
    session_wait session1 0 = Except.error SessionError.invalidSessionState ∧
    session_kill session1 = Except.error SessionError.invalidSessionState ∧
    session1.processHandleOpen = false :=
  c8_wait_completed_then_wait_or_kill_errors session0 7 0 session1 rfl

/-- C9: when every step succeeds, _conpty_create_process closes exactly
the pty-side pipe ends and the child's thread handle, and the result
block holds the write end of the child-input pipe as RES_STDIN, the read
end of the child-output pipe as RES_STDOUT, the pseudoconsole reference
as RES_HPC, and the child's process handle and pid. -/
theorem c9_success_closes_pty_ends_and_fills_session (env : ConptyEnv)
    (h1 : env.pipeInOk = true) (h2 : env.pipeOutOk = true)
    (h3 : env.pseudoOk = true) (h4 : env.attrAllocOk = true)
    (h5 : env.attrInitOk = true) (h6 : env.attrUpdateOk = true)
    (h7 : env.createProcessOk = true) :
    (_conpty_create_process env).result = Except.ok () ∧
    (_conpty_create_process env).fields.resStdin = some inputPipe.writeEnd ∧
    (_conpty_create_process env).fields.resStdout = some outputPipe.readEnd ∧
    (_conpty_create_process env).fields.resHpc = some () ∧
    (_conpty_create_process env).fields.resHandle = some childProcessHandle ∧
    (_conpty_create_process env).fields.resPid = some env.childPid ∧
    (_conpty_create_process env).res =
      { stdinConsOpen := false, stdinOurOpen := true
        stdoutOurOpen := true, stdoutConsOpen := false
        pseudoConsoleOpen := true, attrListAllocated := true
        processRunning := true, threadHandleOpen := false } := by
  obtain ⟨a, b, c, d, e, f, g, pid⟩ := env
  simp only at h1 h2 h3 h4 h5 h6 h7
  subst h1 h2 h3 h4 h5 h6 h7
  exact ⟨rfl, rfl, rfl, rfl, rfl, rfl, rfl⟩

/-- C9 witness: a fully successful spawn with child pid 7. -/
theorem c9_success_closes_pty_ends_and_fills_session_witness :
    (_conpty_create_process envAllOk).result = Except.ok () ∧
    (_conpty_create_process envAllOk).fields.resStdin =
      some inputPipe.writeEnd ∧
    (_conpty_create_process envAllOk).fields.resPid = some 7 := by
  have h := c9_success_closes_pty_ends_and_fills_session envAllOk
    rfl rfl rfl rfl rfl rfl rfl
  exact ⟨h.1, h.2.1, h.2.2.2.2.2.1⟩

/-- C10: ocaml_pty_fork returns a value in both branches: when forkpty
returns 0 the stub returns None with every signal in [0, NSIG) reset to
default disposition and without executing any program, and when forkpty
returns an ordinary pid the stub returns Some (master, pid). -/
theorem c10_fork_returns_in_both_branches
    (width height : Nat) (env : ForkEnv) :
    (env.forkPid = 0 →
      (ocaml_pty_fork width height env).outcome = ForkOutcome.childReturn ∧
      (ocaml_pty_fork width height env).execCalled = false ∧
      ∀ i, i < NSIG →
        (ocaml_pty_fork width height env).childHandlers i =
          SigDisposition.dfl) ∧
    (env.forkPid ≠ -1 → env.forkPid ≠ 0 →
      (ocaml_pty_fork width height env).outcome =
        ForkOutcome.parentReturn env.forkMaster env.forkPid) := by
  constructor
  · intro h0
    refine ⟨?_, rfl, ?_⟩
    · unfold ocaml_pty_fork
      simp [h0]
    · intro i hi
      unfold ocaml_pty_fork
      simp only [h0, if_pos rfl]
      exact sigactionResetLoop_eq_dfl env.initHandlers NSIG i hi
  · intro h1 h0
    unfold ocaml_pty_fork
    simp [h1, h0]

/-- C10 witness: the child branch at pid 0 (signal 9 reset to default, no
exec, None returned) and the parent branch at pid 12 with master fd 3. -/
theorem c10_fork_returns_in_both_branches_witness :
    ((ocaml_pty_fork 80 24 envChild).outcome = ForkOutcome.childReturn ∧
     (ocaml_pty_fork 80 24 envChild).execCalled = false ∧
     (ocaml_pty_fork 80 24 envChild).childHandlers 9 =
       SigDisposition.dfl) ∧
    (ocaml_pty_fork 80 24 envParent).outcome =
      ForkOutcome.parentReturn 3 12 := by
  have hc := (c10_fork_returns_in_both_branches 80 24 envChild).1 rfl
  have hp := (c10_fork_returns_in_both_branches 80 24 envParent).2
    (by decide) (by decide)
  exact ⟨⟨hc.1, hc.2.1, hc.2.2 9 (by decide)⟩, hp⟩

end Mprocs
